import Mathlib

/-!
Shallow embedding of the scoring and aggregation pipeline of the
UOB faculty appraisal dashboard.

The embedded code consists of:
* the behavior-rating normalizer and latest-evaluation selector of the
  HOD appraisals API route (`normalizedRatings`, `appraisalsWithEvaluation`);
* the client-side evaluation-shape mapper (`appraisalsWithEval`);
* the CSV export row builder (`exportCSV`), with its `getPoints`,
  `rawPerformance`, `rawCapabilities`, `scalePerformance`,
  `scaleCapabilities` and overall-score computations;
* the evaluation-eligibility gate `shouldEnableEvaluation`.

Numbers (JS `number` point values) are modelled as rationals; `toFixed(2)`
followed by the unary plus is modelled as rounding to two decimal places
half-up (`round2`), which agrees with the JS behaviour on the values the
claims touch. Dates are modelled by civil (year, month, day) triples mapped
to day numbers, with `Date.setMonth(getMonth() - 1)` given JS overflow
semantics (a day beyond the target month's length rolls into the following
month); wall-clock instants are rationals on the day-number scale.
-/

/-- ASCII case-insensitive character equality: equal outright, or equal after
mapping an ASCII upper-case letter to its lower-case counterpart. -/
def eqCI (a b : Char) : Bool :=
  a == b ||
    (a.toNat + 32 == b.toNat && decide (65 ≤ a.toNat) && decide (a.toNat ≤ 90)) ||
    (b.toNat + 32 == a.toNat && decide (65 ≤ b.toNat) && decide (b.toNat ≤ 90))

/-- Prefix test on character lists: does the first list occur at the head of
the second, up to ASCII case? -/
def isSubAt : List Char → List Char → Bool
  | [], _ => true
  | _ :: _, [] => false
  | a :: as, b :: bs => eqCI a b && isSubAt as bs

/-- Substring test on character lists: does the first list occur contiguously
anywhere inside the second, up to ASCII case? -/
def containsSub (needle : List Char) : List Char → Bool
  | [] => needle.isEmpty
  | b :: bs => isSubAt needle (b :: bs) || containsSub needle bs

/-- Model of the case-insensitive regex test `/kw/i.test(s)` used by the
normalizer, for a literal ASCII pattern `kw`: case-insensitive substring
containment. -/
def testCI (kw : String) (s : String) : Bool :=
  containsSub kw.toList s.toList

/-- A behavior rating row: a free-text capacity label and a point value
(source type `{ capacity: string; points: number }`). -/
structure BehaviorRating where
  capacity : String
  points : ℚ
deriving DecidableEq

/-- The `normalizedRatings` computation of the HOD appraisals API route:
for each of the five canonical capacities, in fixed order, take the points
of the first input rating whose label passes the case-insensitive regex
test for that capacity's keyword, defaulting to 0. -/
def normalizeRatings (behaviorRatings : List BehaviorRating) : List BehaviorRating :=
  [ { capacity := "Institutional Commitment",
      points := ((behaviorRatings.find? fun b => testCI "institutional" b.capacity).map
        BehaviorRating.points).getD 0 },
    { capacity := "Collaboration & Teamwork",
      points := ((behaviorRatings.find? fun b => testCI "collaboration" b.capacity).map
        BehaviorRating.points).getD 0 },
    { capacity := "Professionalism",
      points := ((behaviorRatings.find? fun b => testCI "professionalism" b.capacity).map
        BehaviorRating.points).getD 0 },
    { capacity := "Client Service",
      points := ((behaviorRatings.find? fun b => testCI "client" b.capacity).map
        BehaviorRating.points).getD 0 },
    { capacity := "Achieving Results",
      points := ((behaviorRatings.find? fun b => testCI "achieving" b.capacity).map
        BehaviorRating.points).getD 0 } ]

/-- Points of the first input rating whose label contains the keyword as a
case-insensitive substring, else 0 (the per-capacity lookup the claims
describe). -/
def firstMatchedPoints (behaviorRatings : List BehaviorRating) (kw : String) : ℚ :=
  ((behaviorRatings.find? fun b => testCI kw b.capacity).map BehaviorRating.points).getD 0

/-- An evaluation row as the data layer supplies it to the API route
(Prisma `Evaluation` with included `behaviorRatings`): the four category
point fields, the stored total score and the behavior ratings. -/
structure DbEvaluation where
  totalScore : ℚ
  researchPts : ℚ
  universityServicePts : ℚ
  communityServicePts : ℚ
  teachingQualityPts : ℚ
  behaviorRatings : List BehaviorRating
deriving DecidableEq

/-- An appraisal as the API route receives it: its evaluations, ordered by
creation time descending by the data layer. The other appraisal fields are
passed through unchanged and do not affect the evaluation view, so they are
not modelled. -/
structure DbAppraisal where
  evaluations : List DbEvaluation
deriving DecidableEq

/-- The uniform evaluation view model the API route attaches to every
appraisal. -/
structure EvalView where
  totalScore : ℚ
  researchPts : ℚ
  universityServicePts : ℚ
  communityServicePts : ℚ
  teachingQualityPts : ℚ
  behaviorRatings : List BehaviorRating
deriving DecidableEq

/-- The per-appraisal body of the route's `appraisalsWithEvaluation` map:
take evaluation index 0 as latest (`a.evaluations?.[0] ?? null`), normalize
its behavior ratings (an absent evaluation contributes the empty rating
list), and emit either the latest evaluation's fields or the zero-filled
default. -/
def evaluationView (a : DbAppraisal) : EvalView :=
  let latestEval := a.evaluations.head?
  let behaviorRatings := (latestEval.map DbEvaluation.behaviorRatings).getD []
  let normalizedRatings := normalizeRatings behaviorRatings
  match latestEval with
  | some e =>
      { totalScore := e.totalScore
        researchPts := e.researchPts
        universityServicePts := e.universityServicePts
        communityServicePts := e.communityServicePts
        teachingQualityPts := e.teachingQualityPts
        behaviorRatings := normalizedRatings }
  | none =>
      { totalScore := 0
        researchPts := 0
        universityServicePts := 0
        communityServicePts := 0
        teachingQualityPts := 0
        behaviorRatings := normalizedRatings }

/-- The route's `appraisalsWithEvaluation`: map each appraisal of the batch
to itself (`...a`, the passthrough fields) together with its evaluation
view. -/
def appraisalsWithEvaluation (appraisals : List DbAppraisal) :
    List (DbAppraisal × EvalView) :=
  appraisals.map fun a => (a, evaluationView a)

/-- The client-side optional evaluation shape
(`evaluation?: { behaviorRatings?; totalScore?; researchPts?; ... }`). -/
structure ClientEvaluation where
  behaviorRatings : Option (List BehaviorRating)
  totalScore : Option ℚ
  researchPts : Option ℚ
  universityServicePts : Option ℚ
  communityServicePts : Option ℚ
  teachingQualityPts : Option ℚ
deriving DecidableEq

/-- A client-side appraisal record as consumed by the table component and
its CSV exporter: the instructor name, the appraisal's own stored
`totalScore`, and the optional evaluation. -/
structure ClientAppraisal where
  facultyName : String
  totalScore : Option ℚ
  evaluation : Option ClientEvaluation
deriving DecidableEq

/-- The client evaluation with every field absent, modelling the `{}`
fallback of `a.evaluation ?? {}`. -/
def emptyClientEvaluation : ClientEvaluation :=
  { behaviorRatings := none, totalScore := none, researchPts := none
    universityServicePts := none, communityServicePts := none
    teachingQualityPts := none }

/-- The per-appraisal body of the component's `appraisalsWithEval` map
(the ensure-evaluation-exists step): every field falls back to 0 when
absent, except `totalScore`, which is
`a.evaluation?.totalScore ?? a.totalScore ?? 0`. -/
def ensureEvaluation (a : ClientAppraisal) : EvalView :=
  { behaviorRatings := (a.evaluation.bind ClientEvaluation.behaviorRatings).getD []
    researchPts := (a.evaluation.bind ClientEvaluation.researchPts).getD 0
    universityServicePts := (a.evaluation.bind ClientEvaluation.universityServicePts).getD 0
    communityServicePts := (a.evaluation.bind ClientEvaluation.communityServicePts).getD 0
    teachingQualityPts := (a.evaluation.bind ClientEvaluation.teachingQualityPts).getD 0
    totalScore := (a.evaluation.bind ClientEvaluation.totalScore).getD (a.totalScore.getD 0) }

/-- The exporter's `getPoints`: look a capacity up in the rating list by
exact string equality (`r.capacity === capacity`), defaulting to 0. -/
def getPoints (ratings : List BehaviorRating) (capacity : String) : ℚ :=
  ((ratings.find? fun r => r.capacity == capacity).map BehaviorRating.points).getD 0

/-- The exporter's `rawPerformance`: plain sum of the four category point
fields, each defaulting to 0 when absent. -/
def rawPerformance (evalData : ClientEvaluation) : ℚ :=
  evalData.researchPts.getD 0 + evalData.universityServicePts.getD 0 +
    evalData.communityServicePts.getD 0 + evalData.teachingQualityPts.getD 0

/-- The exporter's `rawCapabilities`: plain sum of the exact-label lookups
of the five canonical capacities. -/
def rawCapabilities (ratings : List BehaviorRating) : ℚ :=
  getPoints ratings "Institutional Commitment" +
    getPoints ratings "Collaboration & Teamwork" +
    getPoints ratings "Professionalism" +
    getPoints ratings "Client Service" +
    getPoints ratings "Achieving Results"

/-- Model of `+x.toFixed(2)`: round to two decimal places, half up. -/
def round2 (q : ℚ) : ℚ :=
  (⌊q * 100 + 1 / 2⌋ : ℤ) / 100

/-- The exporter's `scalePerformance`: `+(points * 3 / 100).toFixed(2)`. -/
def scalePerformance (points : ℚ) : ℚ :=
  round2 (points * 3 / 100)

/-- The exporter's `scaleCapabilities`: `+(points * 7 / 100).toFixed(2)`. -/
def scaleCapabilities (points : ℚ) : ℚ :=
  round2 (points * 7 / 100)

/-- A CSV cell value: the instructor name string or a numeric score. -/
inductive CsvValue where
  | str (s : String)
  | num (q : ℚ)
deriving DecidableEq

/-- The per-appraisal body of `exportCSV`: the flat export row, as an
ordered association list of column key and cell value, with exactly the
keys the source writes (several carry a trailing space). -/
def exportRow (a : ClientAppraisal) : List (String × CsvValue) :=
  let evalData := a.evaluation.getD emptyClientEvaluation
  let ratings := evalData.behaviorRatings.getD []
  let rawPerf := rawPerformance evalData
  let rawCap := rawCapabilities ratings
  let totalPerformanceScaled := scalePerformance rawPerf
  let totalCapabilitiesScaled := scaleCapabilities rawCap
  let overallTotalScaled := round2 ((totalPerformanceScaled + totalCapabilitiesScaled) / 2)
  [ ("Instructor", CsvValue.str a.facultyName),
    ("Research & Scientific Activities ", CsvValue.num (evalData.researchPts.getD 0)),
    ("University Service ", CsvValue.num (evalData.universityServicePts.getD 0)),
    ("Community Service ", CsvValue.num (evalData.communityServicePts.getD 0)),
    ("Quality of Teaching ", CsvValue.num (evalData.teachingQualityPts.getD 0)),
    ("Total Performance (out of 100)", CsvValue.num rawPerf),
    ("Total Performance (out of 3)", CsvValue.num totalPerformanceScaled),
    ("Institutional Commitment ", CsvValue.num (getPoints ratings "Institutional Commitment")),
    ("Collaboration & Teamwork ", CsvValue.num (getPoints ratings "Collaboration & Teamwork")),
    ("Professionalism ", CsvValue.num (getPoints ratings "Professionalism")),
    ("Client Service ", CsvValue.num (getPoints ratings "Client Service")),
    ("Achieving Results ", CsvValue.num (getPoints ratings "Achieving Results")),
    ("Total Capabilities ( out of 100)", CsvValue.num rawCap),
    ("Total Capabilities (out of 7)", CsvValue.num totalCapabilitiesScaled),
    ("Overall Total (out of 5)", CsvValue.num overallTotalScaled) ]

/-- The column keys of the export row, as the source writes them. -/
def exportKeys : List String :=
  [ "Instructor",
    "Research & Scientific Activities ",
    "University Service ",
    "Community Service ",
    "Quality of Teaching ",
    "Total Performance (out of 100)",
    "Total Performance (out of 3)",
    "Institutional Commitment ",
    "Collaboration & Teamwork ",
    "Professionalism ",
    "Client Service ",
    "Achieving Results ",
    "Total Capabilities ( out of 100)",
    "Total Capabilities (out of 7)",
    "Overall Total (out of 5)" ]

/-- The column keys exactly as the specification lists them (no trailing
spaces, `Total Capabilities (out of 100)` without the inner space). Written
from the spec's words, for comparison with `exportKeys`. -/
def specExportKeys : List String :=
  [ "Instructor",
    "Research & Scientific Activities",
    "University Service",
    "Community Service",
    "Quality of Teaching",
    "Total Performance (out of 100)",
    "Total Performance (out of 3)",
    "Institutional Commitment",
    "Collaboration & Teamwork",
    "Professionalism",
    "Client Service",
    "Achieving Results",
    "Total Capabilities (out of 100)",
    "Total Capabilities (out of 7)",
    "Overall Total (out of 5)" ]

/-- The appraisal status enumeration (`new`, `in_progress`, `complete`,
`sent`). -/
inductive EvaluationStatus where
  | new
  | in_progress
  | complete
  | sent
deriving DecidableEq

/-- A civil date with JS `Date` month convention: `month` is 0-based
(0 = January), `day` is 1-based. -/
structure CivilDate where
  year : Int
  month : Nat
  day : Nat
deriving DecidableEq

/-- Day number of a civil date (1-based month `m`), counted from the Unix
epoch, by the standard civil-calendar formula. The formula is linear in the
day argument, so a day beyond the month's length rolls into the following
month, exactly as a JS `Date` normalizes an overflowing day-of-month. -/
def daysFromCivil (y : Int) (m : Int) (d : Int) : Int :=
  let y2 := if m ≤ 2 then y - 1 else y
  let era := (if 0 ≤ y2 then y2 else y2 - 399) / 400
  let yoe := y2 - era * 400
  let mp := (m + 9) % 12
  let doy := (153 * mp + 2) / 5 + d - 1
  let doe := yoe * 365 + yoe / 4 - yoe / 100 + doy
  era * 146097 + doe - 719468

/-- Day number (midnight timestamp, on the day scale) of a civil date. -/
def toDayNumber (dt : CivilDate) : Int :=
  daysFromCivil dt.year (dt.month + 1) dt.day

/-- Model of `d.setMonth(d.getMonth() - 1)` on a date at midnight: decrement
the 0-based month field, borrowing a year when the month was January, and
keep the day-of-month, letting an overflowing day roll into the following
month as JS does. Returns the resulting day number. -/
def oneMonthBefore (dt : CivilDate) : Int :=
  if dt.month = 0 then
    daysFromCivil (dt.year - 1) 12 dt.day
  else
    daysFromCivil dt.year dt.month dt.day

/-- The component's `shouldEnableEvaluation`, over the appraisal status, the
cycle end date (a civil date, i.e. a midnight timestamp) and the current
wall-clock instant `now` measured in (possibly fractional) days on the same
scale: `complete` is never eligible; `new` is eligible exactly when `now`
lies in the inclusive window from one month before the end date to the end
date; every other status is eligible. -/
def shouldEnableEvaluation (status : EvaluationStatus) (cycleEndDate : CivilDate)
    (now : ℚ) : Bool :=
  if status = EvaluationStatus.complete then false
  else if status = EvaluationStatus.new then
    decide ((oneMonthBefore cycleEndDate : ℚ) ≤ now) &&
      decide (now ≤ (toDayNumber cycleEndDate : ℚ))
  else true

/-- The all-zero normalized rating list: the five canonical capacities, each
with 0 points. -/
def zeroRatings : List BehaviorRating :=
  [ ⟨"Institutional Commitment", 0⟩, ⟨"Collaboration & Teamwork", 0⟩,
    ⟨"Professionalism", 0⟩, ⟨"Client Service", 0⟩, ⟨"Achieving Results", 0⟩ ]

/-- A client appraisal whose evaluation has raw performance 100 (all of it
from research) and raw capabilities 100 (all of it from Institutional
Commitment). -/
def samplePerfect : ClientAppraisal :=
  { facultyName := "A"
    totalScore := none
    evaluation := some
      { behaviorRatings := some [⟨"Institutional Commitment", 100⟩]
        totalScore := none
        researchPts := some 100
        universityServicePts := none
        communityServicePts := none
        teachingQualityPts := none } }

/-- A client appraisal with no evaluation at all. -/
def sampleZero : ClientAppraisal :=
  { facultyName := "B", totalScore := none, evaluation := none }

/-- A client appraisal whose single behavior rating carries the canonical
Institutional Commitment label in lower case. -/
def sampleLower : ClientAppraisal :=
  { facultyName := "C"
    totalScore := none
    evaluation := some
      { behaviorRatings := some [⟨"institutional commitment", 50⟩]
        totalScore := none
        researchPts := none
        universityServicePts := none
        communityServicePts := none
        teachingQualityPts := none } }

/-- Cycle end date 2024-06-30 (month is 0-based, so June is 5). -/
def cycleEndJune2024 : CivilDate := ⟨2024, 5, 30⟩

/-- Claim C2: for every input list of behavior ratings, the normalizer
returns exactly 5 entries in the fixed canonical order, each entry's points
being those of the first input entry whose label contains the capacity's
keyword as a case-insensitive substring (0 when no entry matches); an empty
input yields all zeros, unrecognized labels are silently ignored, and the
first of several matching entries wins. -/
theorem claim_C2 :
    (∀ rs : List BehaviorRating,
      (normalizeRatings rs).length = 5 ∧
      (normalizeRatings rs).map BehaviorRating.capacity =
        ["Institutional Commitment", "Collaboration & Teamwork", "Professionalism",
         "Client Service", "Achieving Results"] ∧
      (normalizeRatings rs).map BehaviorRating.points =
        [firstMatchedPoints rs "institutional", firstMatchedPoints rs "collaboration",
         firstMatchedPoints rs "professionalism", firstMatchedPoints rs "client",
         firstMatchedPoints rs "achieving"]) ∧
    normalizeRatings [] = zeroRatings ∧
    normalizeRatings [⟨"Totally Unrelated Label", 99⟩] = zeroRatings ∧
    normalizeRatings [⟨"Client A", 1⟩, ⟨"Client B", 2⟩] =
      [⟨"Institutional Commitment", 0⟩, ⟨"Collaboration & Teamwork", 0⟩,
       ⟨"Professionalism", 0⟩, ⟨"Client Service", 1⟩, ⟨"Achieving Results", 0⟩] := by
  refine ⟨fun rs => ⟨rfl, rfl, rfl⟩, by decide, by decide, by decide⟩

/-- Claim C3: an appraisal with an empty evaluations list gets a zero-filled
evaluation view (all four category points 0, total score 0, the five
canonical ratings all 0), never an absent one; an appraisal with at least
one evaluation gets the fields and normalized ratings of the evaluation at
index 0, ignoring the rest. -/
theorem claim_C3 :
    (∀ a : DbAppraisal, a.evaluations = [] →
      evaluationView a = ⟨0, 0, 0, 0, 0, zeroRatings⟩) ∧
    (∀ (a : DbAppraisal) (e : DbEvaluation) (older : List DbEvaluation),
      a.evaluations = e :: older →
      evaluationView a =
        ⟨e.totalScore, e.researchPts, e.universityServicePts, e.communityServicePts,
         e.teachingQualityPts, normalizeRatings e.behaviorRatings⟩) := by
  constructor
  · intro a h
    unfold evaluationView
    rw [h]
    rfl
  · intro a e older h
    unfold evaluationView
    rw [h]
    rfl

/-- Witness for claim C3 at concrete inputs: an appraisal without
evaluations, and one with two evaluations of which the older is ignored. -/
theorem claim_C3_witness :
    evaluationView ⟨[]⟩ = ⟨0, 0, 0, 0, 0, zeroRatings⟩ ∧
    evaluationView ⟨[⟨50, 10, 20, 5, 15, []⟩, ⟨99, 99, 99, 99, 99, []⟩]⟩ =
      ⟨50, 10, 20, 5, 15, normalizeRatings []⟩ :=
  ⟨claim_C3.1 ⟨[]⟩ rfl,
   claim_C3.2 ⟨[⟨50, 10, 20, 5, 15, []⟩, ⟨99, 99, 99, 99, 99, []⟩]⟩
     ⟨50, 10, 20, 5, 15, []⟩ [⟨99, 99, 99, 99, 99, []⟩] rfl⟩

/-- Claim C8: the capacity normalizer is idempotent — normalizing its own
5-entry output again yields the same result. -/
theorem claim_C8 :
    ∀ rs : List BehaviorRating,
      normalizeRatings (normalizeRatings rs) = normalizeRatings rs := by
  intro rs
  rfl

/-- Claim C9: batch processing preserves input order and is row-independent:
the output has the same length, the output at each index is the view of the
input at that index, and a three-element batch maps position by position. -/
theorem claim_C9 :
    (∀ l : List DbAppraisal,
      (appraisalsWithEvaluation l).length = l.length ∧
      ∀ i : ℕ, (appraisalsWithEvaluation l)[i]? =
        (l[i]?).map fun a => (a, evaluationView a)) ∧
    (∀ a1 a2 a3 : DbAppraisal,
      appraisalsWithEvaluation [a1, a2, a3] =
        [(a1, evaluationView a1), (a2, evaluationView a2), (a3, evaluationView a3)]) := by
  constructor
  · intro l
    refine ⟨List.length_map _ _, fun i => ?_⟩
    simp [appraisalsWithEvaluation]
  · intro a1 a2 a3
    rfl

/-- Claim C4: the evaluate action is never eligible for status complete; for
status new it is eligible exactly when the current instant lies in the
inclusive window from one calendar month before the cycle end date to the
end date; any other status is always eligible. Concretely, with end date
2024-06-30, a new appraisal is eligible at 2024-06-15 and not at 2024-05-15
nor 2024-07-01. -/
theorem claim_C4 :
    (∀ (e : CivilDate) (n : ℚ),
      shouldEnableEvaluation EvaluationStatus.complete e n = false) ∧
    (∀ (e : CivilDate) (n : ℚ),
      shouldEnableEvaluation EvaluationStatus.new e n = true ↔
        ((oneMonthBefore e : ℚ) ≤ n ∧ n ≤ (toDayNumber e : ℚ))) ∧
    (∀ (e : CivilDate) (n : ℚ),
      shouldEnableEvaluation EvaluationStatus.in_progress e n = true) ∧
    (∀ (e : CivilDate) (n : ℚ),
      shouldEnableEvaluation EvaluationStatus.sent e n = true) ∧
    shouldEnableEvaluation EvaluationStatus.new cycleEndJune2024
      (toDayNumber ⟨2024, 5, 15⟩ : ℚ) = true ∧
    shouldEnableEvaluation EvaluationStatus.new cycleEndJune2024
      (toDayNumber ⟨2024, 4, 15⟩ : ℚ) = false ∧
    shouldEnableEvaluation EvaluationStatus.new cycleEndJune2024
      (toDayNumber ⟨2024, 6, 1⟩ : ℚ) = false ∧
    shouldEnableEvaluation EvaluationStatus.complete cycleEndJune2024
      (toDayNumber ⟨2024, 5, 15⟩ : ℚ) = false ∧
    shouldEnableEvaluation EvaluationStatus.sent cycleEndJune2024
      (toDayNumber ⟨2024, 4, 15⟩ : ℚ) = true := by
  refine ⟨fun e n => rfl, fun e n => ?_, fun e n => rfl, fun e n => rfl,
    by decide, by decide, by decide, by decide, by decide⟩
  show (decide ((oneMonthBefore e : ℚ) ≤ n) &&
      decide (n ≤ (toDayNumber e : ℚ))) = true ↔ _
  simp

/-- Claim C5: the exporter's raw performance total is the plain sum of the
four category point fields, each defaulting to 0 when absent, and on the
normalizer's output (the shape the pipeline feeds it) its raw capabilities
total is the plain sum of the five normalized rating point values — no
averaging or re-normalization in either total. -/
theorem claim_C5 :
    (∀ evalData : ClientEvaluation,
      rawPerformance evalData =
        evalData.researchPts.getD 0 + evalData.universityServicePts.getD 0 +
          evalData.communityServicePts.getD 0 + evalData.teachingQualityPts.getD 0) ∧
    (∀ rs : List BehaviorRating,
      rawCapabilities (normalizeRatings rs) =
        ((normalizeRatings rs).map BehaviorRating.points).sum) := by
  constructor
  · intro evalData
    rfl
  · intro rs
    show firstMatchedPoints rs "institutional" + firstMatchedPoints rs "collaboration" +
        firstMatchedPoints rs "professionalism" + firstMatchedPoints rs "client" +
        firstMatchedPoints rs "achieving" =
      ([firstMatchedPoints rs "institutional", firstMatchedPoints rs "collaboration",
        firstMatchedPoints rs "professionalism", firstMatchedPoints rs "client",
        firstMatchedPoints rs "achieving"]).sum
    simp [List.sum_cons, List.sum_nil]
    ring

/-- Claim C1: in every export row the scaled scores are
`round2(rawPerformance * 3 / 100)`, `round2(rawCapabilities * 7 / 100)` and
`round2((scaledPerformance + scaledCapabilities) / 2)`, with two-decimal
rounding applied independently at each of the three scaled quantities; raw
performance 100 and raw capabilities 100 yield 3, 7 and overall 5, and raw
zeros yield overall 0. -/
theorem claim_C1 :
    (∀ a : ClientAppraisal,
      (exportRow a).lookup "Total Performance (out of 3)" =
        some (CsvValue.num
          (round2 (rawPerformance (a.evaluation.getD emptyClientEvaluation) * 3 / 100))) ∧
      (exportRow a).lookup "Total Capabilities (out of 7)" =
        some (CsvValue.num
          (round2 (rawCapabilities
            ((a.evaluation.getD emptyClientEvaluation).behaviorRatings.getD []) * 7 / 100))) ∧
      (exportRow a).lookup "Overall Total (out of 5)" =
        some (CsvValue.num
          (round2 ((round2 (rawPerformance (a.evaluation.getD emptyClientEvaluation) * 3 / 100) +
            round2 (rawCapabilities
              ((a.evaluation.getD emptyClientEvaluation).behaviorRatings.getD []) * 7 / 100)) / 2)))) ∧
    (exportRow samplePerfect).lookup "Total Performance (out of 100)" = some (CsvValue.num 100) ∧
    (exportRow samplePerfect).lookup "Total Capabilities ( out of 100)" = some (CsvValue.num 100) ∧
    (exportRow samplePerfect).lookup "Total Performance (out of 3)" = some (CsvValue.num 3) ∧
    (exportRow samplePerfect).lookup "Total Capabilities (out of 7)" = some (CsvValue.num 7) ∧
    (exportRow samplePerfect).lookup "Overall Total (out of 5)" = some (CsvValue.num 5) ∧
    (exportRow sampleZero).lookup "Total Performance (out of 3)" = some (CsvValue.num 0) ∧
    (exportRow sampleZero).lookup "Total Capabilities (out of 7)" = some (CsvValue.num 0) ∧
    (exportRow sampleZero).lookup "Overall Total (out of 5)" = some (CsvValue.num 0) := by
  refine ⟨fun a => ⟨rfl, rfl, rfl⟩, ?_, ?_, ?_, ?_, ?_, ?_, ?_, ?_⟩
  · show some (CsvValue.num ((100 : ℚ) + 0 + 0 + 0)) = some (CsvValue.num 100)
    norm_num
  · show some (CsvValue.num ((100 : ℚ) + 0 + 0 + 0 + 0)) = some (CsvValue.num 100)
    norm_num
  · show some (CsvValue.num (round2 (((100 : ℚ) + 0 + 0 + 0) * 3 / 100))) =
      some (CsvValue.num 3)
    norm_num [round2]
  · show some (CsvValue.num (round2 (((100 : ℚ) + 0 + 0 + 0 + 0) * 7 / 100))) =
      some (CsvValue.num 7)
    norm_num [round2]
  · show some (CsvValue.num (round2 ((round2 (((100 : ℚ) + 0 + 0 + 0) * 3 / 100) +
        round2 (((100 : ℚ) + 0 + 0 + 0 + 0) * 7 / 100)) / 2))) = some (CsvValue.num 5)
    norm_num [round2]
  · show some (CsvValue.num (round2 (((0 : ℚ) + 0 + 0 + 0) * 3 / 100))) =
      some (CsvValue.num 0)
    norm_num [round2]
  · show some (CsvValue.num (round2 (((0 : ℚ) + 0 + 0 + 0 + 0) * 7 / 100))) =
      some (CsvValue.num 0)
    norm_num [round2]
  · show some (CsvValue.num (round2 ((round2 (((0 : ℚ) + 0 + 0 + 0) * 3 / 100) +
        round2 (((0 : ℚ) + 0 + 0 + 0 + 0) * 7 / 100)) / 2))) = some (CsvValue.num 0)
    norm_num [round2]

/-- Counterexample to claim C6: the column keys the exporter actually emits
differ from the keys the specification lists (the specification's keys have
no trailing spaces and read `Total Capabilities (out of 100)`). -/
theorem claim_C6_counterexample :
    (exportRow sampleZero).map Prod.fst ≠ specExportKeys := by
  decide

/-- Claim C6 (amended): every export row's column keys are exactly, in
order, the fifteen keys the source writes — nine of them carry a trailing
space and the raw-capabilities key reads `Total Capabilities ( out of 100)`
with a space after the opening parenthesis. -/
theorem claim_C6 :
    ∀ a : ClientAppraisal, (exportRow a).map Prod.fst = exportKeys := by
  intro a
  rfl

/-- Counterexample to claim C7: on an appraisal with no evaluation but a
stored appraisal-level total score of 42, the ensure-evaluation step emits
total score 42, so a missing evaluation is not always filled with zero. -/
theorem claim_C7_counterexample :
    (ensureEvaluation ⟨"X", some 42, none⟩).totalScore = 42 ∧ (42 : ℚ) ≠ 0 := by
  exact ⟨rfl, by norm_num⟩

/-- Claim C7 (amended): the engine is a total function that fills every
input gap with zero — a wholly absent evaluation together with an absent
appraisal total score yields the all-zero shape, each absent category point
yields 0, an unmatched behavior label yields 0 — except that a missing
evaluation total score first falls back to the appraisal's stored total
score and only then to 0. -/
theorem claim_C7 :
    (∀ a : ClientAppraisal, a.evaluation = none → a.totalScore = none →
      ensureEvaluation a = ⟨0, 0, 0, 0, 0, []⟩) ∧
    (∀ (a : ClientAppraisal) (t : ℚ), a.evaluation = none → a.totalScore = some t →
      ensureEvaluation a = ⟨t, 0, 0, 0, 0, []⟩) ∧
    (∀ (a : ClientAppraisal) (e : ClientEvaluation), a.evaluation = some e →
      ensureEvaluation a =
        ⟨e.totalScore.getD (a.totalScore.getD 0), e.researchPts.getD 0,
         e.universityServicePts.getD 0, e.communityServicePts.getD 0,
         e.teachingQualityPts.getD 0, e.behaviorRatings.getD []⟩) ∧
    (∀ (rs : List BehaviorRating) (c : String), (∀ r ∈ rs, r.capacity ≠ c) →
      getPoints rs c = 0) := by
  refine ⟨?_, ?_, ?_, ?_⟩
  · intro a h1 h2
    unfold ensureEvaluation
    rw [h1, h2]
    rfl
  · intro a t h1 h2
    unfold ensureEvaluation
    rw [h1, h2]
    rfl
  · intro a e h1
    unfold ensureEvaluation
    rw [h1]
    rfl
  · intro rs c h
    have hnone : rs.find? (fun r => r.capacity == c) = none := by
      rw [List.find?_eq_none]
      intro r hr
      simpa using h r hr
    simp [getPoints, hnone]

/-- Witness for claim C7 at concrete inputs: the fully absent case and an
unmatched behavior label. -/
theorem claim_C7_witness :
    ensureEvaluation ⟨"Y", none, none⟩ = ⟨0, 0, 0, 0, 0, []⟩ ∧
    getPoints [⟨"Some Other Capacity", 9⟩] "Professionalism" = 0 :=
  ⟨claim_C7.1 ⟨"Y", none, none⟩ rfl rfl,
   claim_C7.2.2.2 [⟨"Some Other Capacity", 9⟩] "Professionalism" (by decide)⟩

/-- Claim C10: the CSV exporter looks behavior-rating points up by exact
string equality with the canonical labels: a rating whose label differs in
any character contributes 0 to the exported capability columns and to the
raw capabilities total, even when the substring normalizer would have
matched it (as the lower-case example shows). -/
theorem claim_C10 :
    (∀ (rs : List BehaviorRating) (c : String), (∀ r ∈ rs, r.capacity ≠ c) →
      getPoints rs c = 0) ∧
    getPoints [⟨"institutional commitment", 50⟩] "Institutional Commitment" = 0 ∧
    rawCapabilities [⟨"institutional commitment", 50⟩] = 0 ∧
    (exportRow sampleLower).lookup "Institutional Commitment " = some (CsvValue.num 0) ∧
    (exportRow sampleLower).lookup "Total Capabilities ( out of 100)" =
      some (CsvValue.num 0) ∧
    normalizeRatings [⟨"institutional commitment", 50⟩] =
      [⟨"Institutional Commitment", 50⟩, ⟨"Collaboration & Teamwork", 0⟩,
       ⟨"Professionalism", 0⟩, ⟨"Client Service", 0⟩, ⟨"Achieving Results", 0⟩] := by
  refine ⟨?_, rfl, ?_, rfl, ?_, by decide⟩
  · intro rs c h
    have hnone : rs.find? (fun r => r.capacity == c) = none := by
      rw [List.find?_eq_none]
      intro r hr
      simpa using h r hr
    simp [getPoints, hnone]
  · show (0 : ℚ) + 0 + 0 + 0 + 0 = 0
    norm_num
  · show some (CsvValue.num ((0 : ℚ) + 0 + 0 + 0 + 0)) = some (CsvValue.num 0)
    norm_num

/-- Witness for claim C10 at a concrete input: a list whose only label is
not the queried canonical label yields 0. -/
theorem claim_C10_witness :
    getPoints [⟨"Other", 9⟩] "Client Service" = 0 :=
  claim_C10.1 [⟨"Other", 9⟩] "Client Service" (by decide)
